import Mathlib

set_option maxRecDepth 100000

/-!
Verification of the `runna_cli.py` command-line training-plan generator.

This file gives a shallow embedding of the program in Lean 4 and proves
properties of that embedding.  JSON values are modelled by the inductive
type `Json`; Python dictionaries produced by `json.loads` are modelled as
association lists in insertion order; an uncaught Python exception is
modelled by `Option.none`; printing is modelled by returning the list of
printed lines (one list element per `print` call).  `json.loads` itself is
standard-library code, so it is kept abstract: functions that parse take a
`parse : String → Option Json` parameter.

One fact about the source drives several results below: in
`runna_cli.py` the f-string assigned to `prompt` is closed by a stray
`"""` on line 85, immediately after the user-data section.  The rest of
the intended template (philosophy, training principles, pace zones, JSON
schemas, lines 87-175) is left behind as top-level text that is not even
syntactically valid Python.  The embedding `buildPrompt` reproduces the
string actually assigned to `prompt` (lines 76-85); the unreachable
pace-zone block is transcribed verbatim as `deadPaceZoneJson` so that its
wording can be compared with the table given in the specification.
-/

/-- Apostrophe character, used to spell source strings that contain one. -/
def aposChar : Char := Char.ofNat 39

/-- Double-quote character. -/
def quotChar : Char := Char.ofNat 34

/-- Apostrophe as a one-character string. -/
def aposStr : String := String.singleton aposChar

/-- JSON values as produced by `json.loads`: objects are association lists
in insertion order (Python dictionaries preserve insertion order and have
unique keys). Numbers are modelled as integers, which covers every value
the claims exercise. -/
inductive Json where
  | null
  | bool (b : Bool)
  | num (n : Int)
  | str (s : String)
  | arr (elems : List Json)
  | obj (fields : List (String × Json))

/-- Test whether a `Json` value is an object (a Python `dict`), modelling
`isinstance(x, dict)`. -/
def Json.isObj : Json → Bool
  | .obj _ => true
  | _ => false

/-- Python equality test of a value against a string literal, modelling
`x == "lit"`: true exactly when the value is that very string. -/
def Json.isStrEq (j : Json) (s : String) : Bool :=
  match j with
  | .str t => t == s
  | _ => false

/-- Python `repr` of a string: quote choice and escaping as `repr` does for
the common cases (backslash, quotes, newline, tab, carriage return). -/
def pyReprStr (s : String) : String :=
  let hasA := s.data.contains aposChar
  let hasQ := s.data.contains quotChar
  let q := if hasA && !hasQ then quotChar else aposChar
  let esc := s.data.foldr
    (fun c acc =>
      (if c = '\\' then ['\\', '\\']
       else if c = q then ['\\', q]
       else if c = '\n' then ['\\', 'n']
       else if c = '\t' then ['\\', 't']
       else if c = '\r' then ['\\', 'r']
       else [c]) ++ acc) []
  ⟨q :: (esc ++ [q])⟩

mutual

/-- Python `repr` of a parsed-JSON value (`None`, `True`, `False`, numbers,
quoted strings, `[...]`, and dict display). -/
def pyRepr : Json → String
  | .null => "None"
  | .bool b => if b then "True" else "False"
  | .num n => toString n
  | .str s => pyReprStr s
  | .arr xs => "[" ++ String.intercalate ", " (pyReprList xs) ++ "]"
  | .obj fs => "\x7b" ++ String.intercalate ", " (pyReprFields fs) ++ "\x7d"

/-- Helper for `pyRepr`: reprs of the elements of a list. -/
def pyReprList : List Json → List String
  | [] => []
  | x :: xs => pyRepr x :: pyReprList xs

/-- Helper for `pyRepr`: `key: value` reprs of the fields of a dict. -/
def pyReprFields : List (String × Json) → List String
  | [] => []
  | kv :: fs => (pyReprStr kv.1 ++ ": " ++ pyRepr kv.2) :: pyReprFields fs

end

/-- Python `str()` of a parsed-JSON value, as used when the value is
interpolated into an f-string: a string interpolates as itself, anything
else as its `repr`-style display. -/
def pyStr : Json → String
  | .str s => s
  | j => pyRepr j

/-- Python `d.get(key, default)` on a dict modelled as an association
list: the stored value when the key is present, the default otherwise. -/
def pyGetD (fs : List (String × Json)) (k : String) (dflt : Json) : Json :=
  match fs.lookup k with
  | some v => v
  | none => dflt

/-- Optional free-text CLI argument interpolated into an f-string:
`argparse` yields `None` for an omitted optional flag and Python renders
`None` as the four characters `None`. -/
def pyOptStr : Option String → String
  | none => "None"
  | some s => s

/-! ## Philosophy catalog (lines 10-15 of `runna_cli.py`) -/

/-- Description text of the philosophy `The Gentle Start` (line 11). -/
def gentleStartText : String :=
  "This philosophy is for those new to running. It focuses on building a consistent habit and enjoying the process. The plan will gradually increase in duration and intensity, with a mix of running and walking to ease you into it. The key is to listen to your body and not push too hard too soon."

/-- Description text of the philosophy `The Balanced & Motivational`
(line 12). -/
def balancedMotivationalText : String :=
  "This philosophy is for runners who want to improve but also maintain a healthy balance with other aspects of life. The plan will include a variety of runs to keep things interesting, with a focus on positive reinforcement and celebrating small wins. It" ++ aposStr ++ "s about making running a sustainable and enjoyable part of your lifestyle."

/-- Description text of the philosophy `Train Smarter Not Harder`
(line 13). -/
def trainSmarterText : String :=
  "This philosophy is for the data-driven runner who wants to maximize their performance efficiently. The plan will focus on quality over quantity, with specific workouts designed to improve your pace and endurance. It will incorporate principles of polarized training, with a mix of high-intensity and low-intensity sessions."

/-- Description text of the philosophy `The Performance Push` (line 14). -/
def performancePushText : String :=
  "This philosophy is for the experienced runner who is ready to push their limits and achieve a new personal best. The plan will be challenging and demanding, with a high volume of running and intense workouts. It" ++ aposStr ++ "s designed to get you to the starting line feeling strong, confident, and ready to race."

/-- The `RUNNING_PHILOSOPHIES` dictionary: philosophy name to description
text, in source order. -/
def RUNNING_PHILOSOPHIES : List (String × String) :=
  [("The Gentle Start", gentleStartText),
   ("The Balanced & Motivational", balancedMotivationalText),
   ("Train Smarter Not Harder", trainSmarterText),
   ("The Performance Push", performancePushText)]

/-! ## CLI argument domains (lines 60-67) -/

/-- Allowed values of `--sex`. -/
def sexChoices : List String := ["Male", "Female", "Prefer not to say"]

/-- Allowed values of `--age`. -/
def ageChoices : List String := ["18-24", "25-34", "35-44", "45-54", "55+"]

/-- Allowed values of `--fitness`. -/
def fitnessChoices : List String :=
  ["Just Starting", "Beginner Runner", "Intermediate Runner", "Advanced Runner"]

/-- Allowed values of `--goal`. -/
def goalChoices : List String := ["Run Faster", "Run Longer", "Stay Fit"]

/-- Allowed values of `--commitment`. -/
def commitmentChoices : List Nat := [3, 4, 5]

/-! ## Prompt builder (lines 76-85)

The f-string assigned to `prompt` is terminated by the stray `"""` on
line 85, so the assigned value consists of the header sentence and the
user-data section only.  The fixed pieces below are the literal text
between the interpolation slots, byte for byte (including the trailing
space after the closing quote of the motivation line). -/

/-- Fixed prompt text up to the `Age:` slot. -/
def promptP1 : String :=
  "You are an expert running coach generating a personalized, day-by-day training plan for an Indian runner for 2 weeks. Adhere strictly to all principles and rules provided. Use the detailed JSON structures provided.\n\n    **1. User Data:**\n    - Age: "

/-- Fixed prompt text between the age and sex slots. -/
def promptP2 : String := ", Sex: "

/-- Fixed prompt text between the sex and fitness slots. -/
def promptP3 : String := "\n    - Level: "

/-- Fixed prompt text between the fitness and goal slots. -/
def promptP4 : String := "\n    - Goal: "

/-- Fixed prompt text between the goal and motivation slots. -/
def promptP5 : String := "\n    - Motivation: \""

/-- Fixed prompt text between the motivation and target slots. -/
def promptP6 : String := "\" \n    - Target: "

/-- Fixed prompt text between the target and commitment slots. -/
def promptP7 : String := " (if applicable)\n    - Commitment: "

/-- Fixed prompt text after the commitment slot, ending the string. -/
def promptP8 : String := " days/week for 2 weeks.\n"

/-- The value assigned to `prompt` (lines 76-85): the f-string as actually
delimited in the source, interpolating the user profile.  The stray `"""`
on line 85 ends the string right after the commitment line, so no later
section is part of it. -/
def buildPrompt (sex age fitness goal : String)
    (motivation targetOutcome : Option String) (commitment : Nat) : String :=
  promptP1 ++ age ++ promptP2 ++ sex ++ promptP3 ++ fitness ++ promptP4 ++
    goal ++ promptP5 ++ pyOptStr motivation ++ promptP6 ++
    pyOptStr targetOutcome ++ promptP7 ++ toString commitment ++ promptP8

/-- Verbatim transcription of the pace-zone JSON block (lines 101-136 of
`runna_cli.py`).  This text lies in the syntactically dead region after
the closing `"""` of the prompt assignment: it is never part of any
runtime value (the region is not even valid Python), but it records the
wording the author intended for the pace zones. -/
def deadPaceZoneJson : String :=
  "    ```json\n    \x7b\x7b\n      \"pace_zones\": \x7b\x7b\n        \"zone_1_recovery\": \x7b\x7b\n          \"description\": \"Very easy, conversational\",\n          \"pace_calculation\": \"5K_pace + 90-120 seconds\",\n          \"hr_percentage\": \"65-75% max HR\",\n          \"rpe\": \"2-3/10\"\n        \x7d\x7d,\n        \"zone_2_aerobic\": \x7b\x7b\n          \"description\": \"Easy, build aerobic base\",\n          \"pace_calculation\": \"5K_pace + 60-90 seconds\", \n          \"hr_percentage\": \"75-85% max HR\",\n          \"rpe\": \"4-5/10\"\n        \x7d\x7d,\n        \"zone_3_tempo\": \x7b\x7b\n          \"description\": \"Comfortably hard, tempo pace\",\n          \"pace_calculation\": \"5K_pace + 15-30 seconds\",\n          \"hr_percentage\": \"85-90% max HR\", \n          \"rpe\": \"6-7/10\"\n        \x7d\x7d,\n        \"zone_4_threshold\": \x7b\x7b\n          \"description\": \"Hard, lactate threshold\",\n          \"pace_calculation\": \"5K_pace + 0-15 seconds\",\n          \"hr_percentage\": \"90-95% max HR\",\n          \"rpe\": \"7-8/10\"\n        \x7d\x7d,\n        \"zone_5_vo2max\": \x7b\x7b\n          \"description\": \"Very hard, VO2 max pace\",\n          \"pace_calculation\": \"5K_pace - 5-10 seconds\",\n          \"hr_percentage\": \"95-100% max HR\",\n          \"rpe\": \"9-10/10\"\n        \x7d\x7d\n      \x7d\x7d\n    \x7d\x7d\n    ```\n"

/-! ## Model client (lines 17-29)

The Gemini SDK is external code, so the network is abstracted: `send`
maps a prompt to the reply text, and the second component of the result
lists the requests actually issued, in order.  A raised exception is an
`Except.error` carrying the message. -/

/-- Embedding of `call_gemini_api`: reads the credential (modelled as the
value of `os.getenv("GEMINI_API_KEY")`, `none` when the variable is
absent), raises `ValueError` when it is missing or empty (Python
`not api_key` is true for both `None` and `""`), and otherwise issues
exactly one request carrying the prompt. -/
def call_gemini_api (apiKey : Option String) (send : String → String)
    (prompt : String) : Except String String × List String :=
  match apiKey with
  | none => (.error "GEMINI_API_KEY not found in .env file", [])
  | some k =>
    if k = "" then (.error "GEMINI_API_KEY not found in .env file", [])
    else (.ok (send prompt), [prompt])

/-! ## Response normalizer (lines 181-184)

Python string slicing and the `startswith`/`endswith` tests operate on
code points, so they are embedded through the character list underlying
the string. -/

/-- Python `s.startswith(pre)`. -/
def pyStartsWith (s pre : String) : Bool :=
  pre.data.isPrefixOf s.data

/-- Python `s.endswith(suf)`. -/
def pyEndsWith (s suf : String) : Bool :=
  suf.data.isSuffixOf s.data

/-- Python `s[n:]`. -/
def pyDrop (s : String) (n : Nat) : String :=
  ⟨s.data.drop n⟩

/-- Python `s[:-n]` for positive `n`. -/
def pyDropRight (s : String) (n : Nat) : String :=
  ⟨s.data.take (s.data.length - n)⟩

/-- The opening code-fence token tested on line 181. -/
def jsonFenceOpen : String := "```json"

/-- The closing code-fence token tested on line 183. -/
def fenceClose : String := "```"

/-- Fence stripping applied to the reply (lines 181-184): drop the first
7 characters when the reply starts with the opening token, then drop the
last 3 characters when the (possibly already shortened) reply ends with
the closing token.  The two tests are independent. -/
def stripFences (s : String) : String :=
  let s1 := if pyStartsWith s jsonFenceOpen then pyDrop s 7 else s
  if pyEndsWith s1 fenceClose then pyDropRight s1 3 else s1

/-! ## Plan renderer (lines 31-54 and 195-209)

Each `print` call contributes one string to the output list.  `none`
models an uncaught exception (`AttributeError`/`TypeError`). -/

/-- Sequential effectful map, modelling a Python `for` loop whose body may
raise: the first exception aborts the whole computation. -/
def mapOrFail (f : α → Option β) : List α → Option (List β)
  | [] => some []
  | x :: xs =>
    match f x with
    | none => none
    | some y =>
      match mapOrFail f xs with
      | none => none
      | some ys => some (y :: ys)

/-- Python iteration over a parsed-JSON value (`for x in v`): lists yield
their elements, strings their characters (as one-character strings),
dicts their keys; `None`, booleans and numbers are not iterable
(`TypeError`). -/
def iterJson : Json → Option (List Json)
  | .arr xs => some xs
  | .str s => some (s.data.map fun c => .str (String.singleton c))
  | .obj fs => some (fs.map fun kv => .str kv.1)
  | _ => none

/-- Python `x.get(...)` is only available on dicts: project the fields of
an object, raising (`AttributeError`) on anything else. -/
def asObj : Json → Option (List (String × Json))
  | .obj fs => some fs
  | _ => none

/-- Python `c.upper()` as used on the ASCII week/day keys: character-wise
upper-casing. -/
def pyUpper (s : String) : String :=
  ⟨s.data.map Char.toUpper⟩

/-- Python `s.replace("_", " ")`: for the one-character pattern used in
the source this is a character-wise substitution. -/
def underscoreToSpace (s : String) : String :=
  ⟨s.data.map fun c => if c = '_' then ' ' else c⟩

/-- One warm-up exercise line of `format_strength_workout` (line 50);
raises when the iterated element is not a dict. -/
def fmtWarmupExercise (e : Json) : Option String :=
  match e with
  | .obj ef =>
    some ("      - " ++ pyStr (pyGetD ef "name" (.str "N/A")) ++ ": " ++
      pyStr (pyGetD ef "duration" (.str "N/A")))
  | _ => none

/-- One main-circuit exercise line of `format_strength_workout` (line 54);
raises when the iterated element is not a dict. -/
def fmtCircuitExercise (e : Json) : Option String :=
  match e with
  | .obj ef =>
    some ("      - " ++ pyStr (pyGetD ef "name" (.str "N/A")) ++ ": " ++
      pyStr (pyGetD ef "sets" (.str "N/A")) ++ " sets of " ++
      pyStr (pyGetD ef "reps" (.str "N/A")))
  | _ => none

/-- Warm-up block of `format_strength_workout` (lines 47-50): the block is
entered only when `warm_up` is present and a dict; it prints the duration
line and then one line per element of `warm_up.get("exercises", [])`. -/
def strengthWarmupBlock (fs : List (String × Json)) : Option (List String) :=
  match fs.lookup "warm_up" with
  | some (.obj wu) =>
    match iterJson (pyGetD wu "exercises" (.arr [])) with
    | none => none
    | some items =>
      match mapOrFail fmtWarmupExercise items with
      | none => none
      | some exLines =>
        some (("    Warm-up: " ++ pyStr (pyGetD wu "duration" (.str "N/A"))) :: exLines)
  | _ => some []

/-- Main-circuit block of `format_strength_workout` (lines 51-54). -/
def strengthCircuitBlock (fs : List (String × Json)) : Option (List String) :=
  match fs.lookup "main_circuit" with
  | some (.obj mc) =>
    match iterJson (pyGetD mc "exercises" (.arr [])) with
    | none => none
    | some items =>
      match mapOrFail fmtCircuitExercise items with
      | none => none
      | some exLines =>
        some (("    Main Circuit: " ++ pyStr (pyGetD mc "rounds" (.str "N/A")) ++ " rounds") :: exLines)
  | _ => some []

/-- Embedding of `format_strength_workout` (lines 45-54), applied to the
fields of the day dict: total-duration line, then the warm-up block, then
the main-circuit block. -/
def format_strength_workout (fs : List (String × Json)) : Option (List String) :=
  match strengthWarmupBlock fs with
  | none => none
  | some w =>
    match strengthCircuitBlock fs with
    | none => none
    | some m =>
      some (("    Total Duration: " ++ pyStr (pyGetD fs "total_duration" (.str "N/A"))) :: (w ++ m))

/-- The three unconditional lines of `format_running_workout`
(lines 32-34). -/
def runningBaseLines (fs : List (String × Json)) : List String :=
  ["    Intensity: " ++ pyStr (pyGetD fs "intensity" (.str "N/A")),
   "    RPE Target: " ++ pyStr (pyGetD fs "rpe_target" (.str "N/A")),
   "    Pace Guidance: " ++ pyStr (pyGetD fs "pace_guidance" (.str "N/A"))]

/-- Warm-up line of `format_running_workout` (lines 35-36): printed only
when `warm_up` is present and a dict. -/
def runningWarmupLines (fs : List (String × Json)) : List String :=
  match fs.lookup "warm_up" with
  | some (.obj w) =>
    ["    Warm-up: " ++ pyStr (pyGetD w "duration_mins" (.str "N/A")) ++
      " mins - " ++ pyStr (pyGetD w "description" (.str "N/A"))]
  | _ => []

/-- Main-workout block of `format_running_workout` (lines 37-41): when
`main_workout` is present and a dict, its structure line, then one bullet
per element of `key_points` when that key is present (iterating a
non-iterable value raises). -/
def runningMainBlock (fs : List (String × Json)) : Option (List String) :=
  match fs.lookup "main_workout" with
  | some (.obj m) =>
    let structureLine := "    Main Workout: " ++ pyStr (pyGetD m "structure" (.str "N/A"))
    match m.lookup "key_points" with
    | some v =>
      match iterJson v with
      | none => none
      | some pts => some (structureLine :: pts.map fun p => "      - " ++ pyStr p)
    | none => some [structureLine]
  | _ => some []

/-- Cool-down line of `format_running_workout` (lines 42-43). -/
def runningCooldownLines (fs : List (String × Json)) : List String :=
  match fs.lookup "cool_down" with
  | some (.obj c) =>
    ["    Cool-down: " ++ pyStr (pyGetD c "duration_mins" (.str "N/A")) ++
      " mins - " ++ pyStr (pyGetD c "description" (.str "N/A"))]
  | _ => []

/-- Embedding of `format_running_workout` (lines 31-43). -/
def format_running_workout (fs : List (String × Json)) : Option (List String) :=
  match runningMainBlock fs with
  | none => none
  | some mw =>
    some (runningBaseLines fs ++ runningWarmupLines fs ++ mw ++ runningCooldownLines fs)

/-- Per-day dispatch of the renderer (lines 204-209), applied to the
fields of the day dict: `Strength` goes to the strength formatter, any
other value (including a missing key, whose `get` default is `None`)
except exactly `Rest` goes to the running formatter, and `Rest` prints
the optional-activity line. -/
def renderDayBody (fs : List (String × Json)) : Option (List String) :=
  if (pyGetD fs "workout_type" .null).isStrEq "Strength" then
    format_strength_workout fs
  else if !(pyGetD fs "workout_type" .null).isStrEq "Rest" then
    format_running_workout fs
  else
    some ["    Optional Activity: " ++ pyStr (pyGetD fs "optional_activity" (.str "N/A"))]

/-- Rendering of one day entry inside a week (lines 199-209): the literal
key `weekly_gear_tip` prints a tip line and moves on; any other key
prints the day header (raising if the day value is not a dict, since
`.get` is called on it) followed by the dispatched body. -/
def renderDay (day : String) (dayData : Json) : Option (List String) :=
  if day == "weekly_gear_tip" then
    some ["\n  Weekly Gear Tip: " ++ pyStr dayData]
  else
    match asObj dayData with
    | none => none
    | some fs =>
      match renderDayBody fs with
      | none => none
      | some body =>
        some (("\n  " ++ pyUpper (underscoreToSpace day) ++ ": " ++
          pyStr (pyGetD fs "workout_type" (.str "N/A")) ++ " - " ++
          pyStr (pyGetD fs "purpose" (.str "N/A"))) :: body)

/-- Rendering of one top-level entry (lines 196-209): keys not starting
with `week` are skipped; otherwise the week header is printed and, only
when the value is a dict, its day entries are rendered in order. -/
def renderWeekEntry (week : String) (weekData : Json) : Option (List String) :=
  if pyStartsWith week "week" then
    let header := "\n" ++ pyUpper (underscoreToSpace week) ++ ":"
    match weekData with
    | .obj days =>
      match mapOrFail (fun kv => renderDay kv.1 kv.2) days with
      | none => none
      | some blocks => some (header :: blocks.flatten)
    | _ => some [header]
  else some []

/-- Embedding of the display loop (lines 195-209) applied to the parsed
training plan: iterates the top-level entries in order (`.items()` on a
non-dict raises). -/
def renderPlan (trainingPlan : Json) : Option (List String) :=
  match trainingPlan with
  | .obj entries =>
    match mapOrFail (fun kv => renderWeekEntry kv.1 kv.2) entries with
    | none => none
    | some blocks => some blocks.flatten
  | _ => none

/-! ## Reply handling (lines 178-209) -/

/-- Outcome of the part of `main` that follows the API call. -/
inductive ReplyResult where
  | plan (lines : List String)
  | decodeError (raw : String)
  | renderCrash
deriving DecidableEq

/-- Embedding of lines 180-209 of `main`: strip fences, attempt to parse
(`json.loads` is standard-library code, abstracted as `parse`), and on
failure print the diagnostic and the raw offending text (which at that
point is the fence-stripped reply, since `api_response` was reassigned)
and return cleanly without rendering; on success render the plan, where
`renderCrash` models an exception escaping the renderer. -/
def handleReply (parse : String → Option Json) (reply : String) : ReplyResult :=
  let content := stripFences reply
  match parse content with
  | none => .decodeError content
  | some trainingPlan =>
    match renderPlan trainingPlan with
    | none => .renderCrash
    | some lines => .plan ("\n--- YOUR PERSONALIZED TRAINING PLAN ---" :: lines)

/-- Outcome of a whole run of `main` after argument parsing. -/
inductive RunResult where
  | aborted (msg : String)
  | finished (r : ReplyResult)

/-- The linear workflow of `main` after the prompt is built: call the
model (aborting the run when the client raises) and hand the reply to
`handleReply`.  The second component lists the network requests issued. -/
def runWorkflow (apiKey : Option String) (send : String → String)
    (parse : String → Option Json) (prompt : String) : RunResult × List String :=
  match call_gemini_api apiKey send prompt with
  | (.error e, reqs) => (.aborted e, reqs)
  | (.ok reply, reqs) => (.finished (handleReply parse reply), reqs)

/-! ## Helper lemmas -/

/-- A list is a Boolean prefix of itself followed by anything. -/
theorem isPrefixOf_append_self (p r : List Char) : p.isPrefixOf (p ++ r) = true := by
  induction p with
  | nil => simp [List.isPrefixOf]
  | cons a as ih => simp [List.isPrefixOf, ih]

/-- A list is a Boolean suffix of anything followed by itself. -/
theorem isSuffixOf_append_self (s r : List Char) : s.isSuffixOf (r ++ s) = true := by
  simp [List.isSuffixOf]

/-- A pattern containing a character that the text lacks is not an infix
of the text. -/
theorem not_infix_of_missing_char {c : Char} {pat l : List Char}
    (hc : c ∈ pat) (hl : c ∉ l) : ¬ pat <:+: l :=
  fun h => hl (h.subset hc)

/-- The loop map succeeds when every element succeeds. -/
theorem mapOrFail_isSome {α β : Type} {f : α → Option β} {l : List α}
    (h : ∀ x ∈ l, (f x).isSome) : (mapOrFail f l).isSome := by
  induction l with
  | nil => simp [mapOrFail]
  | cons x xs ih =>
    obtain ⟨y, hy⟩ := Option.isSome_iff_exists.mp (h x (by simp))
    obtain ⟨ys, hys⟩ := Option.isSome_iff_exists.mp
      (ih fun z hz => h z (by simp [hz]))
    simp [mapOrFail, hy, hys]



/-- C6: stripping the fences off a reply that is a JSON text wrapped in an
opening three-backtick json fence and a closing three-backtick fence gives
back exactly the original text, so any parse of the stripped content
agrees with the parse of the unfenced text. -/
theorem stripFences_roundTrip (t : String) :
    stripFences (jsonFenceOpen ++ t ++ fenceClose) = t ∧
    ∀ parse : String → Option Json,
      parse (stripFences (jsonFenceOpen ++ t ++ fenceClose)) = parse t := by
  have key : stripFences (jsonFenceOpen ++ t ++ fenceClose) = t := by
    obtain ⟨l⟩ := t
    have hdata : (jsonFenceOpen ++ String.mk l ++ fenceClose).data
        = jsonFenceOpen.data ++ (l ++ fenceClose.data) := by
      simp [String.data_append]
    have hpre : pyStartsWith (jsonFenceOpen ++ String.mk l ++ fenceClose) jsonFenceOpen = true := by
      unfold pyStartsWith
      rw [hdata]
      exact isPrefixOf_append_self _ _
    have hdrop : pyDrop (jsonFenceOpen ++ String.mk l ++ fenceClose) 7
        = String.mk (l ++ fenceClose.data) := by
      unfold pyDrop
      rw [hdata]
      have h7 : jsonFenceOpen.data.length = 7 := rfl
      rw [← h7, List.drop_left]
    have hsuf : pyEndsWith (String.mk (l ++ fenceClose.data)) fenceClose = true := by
      unfold pyEndsWith
      exact isSuffixOf_append_self _ _
    have htake : pyDropRight (String.mk (l ++ fenceClose.data)) 3 = String.mk l := by
      unfold pyDropRight
      have h3 : fenceClose.data.length = 3 := rfl
      simp [List.length_append, h3, List.take_left]
    unfold stripFences
    rw [hpre]
    simp only [if_true]
    rw [hdrop, hsuf]
    simp only [if_true]
    exact htake
  exact ⟨key, fun parse => by rw [key]⟩

/-- C7: when the reply starts with the opening json fence but, after the
first seven characters are dropped, does not end with the closing fence
(and symmetrically when only the closing fence is present), the
normalizer still strips whichever fence is there, and the remainder is
what gets attempted as JSON; a parse failure on it is handled as the
recognized decode-error path, never a crash. -/
theorem asymmetricFence_stripped (parse : String → Option Json) (s s' : String) :
    (pyStartsWith s jsonFenceOpen = true →
      pyEndsWith (pyDrop s 7) fenceClose = false →
      stripFences s = pyDrop s 7 ∧
        (parse (pyDrop s 7) = none →
          handleReply parse s = ReplyResult.decodeError (pyDrop s 7))) ∧
    (pyStartsWith s' jsonFenceOpen = false →
      pyEndsWith s' fenceClose = true →
      stripFences s' = pyDropRight s' 3 ∧
        (parse (pyDropRight s' 3) = none →
          handleReply parse s' = ReplyResult.decodeError (pyDropRight s' 3))) := by
  constructor
  · intro h1 h2
    have hs : stripFences s = pyDrop s 7 := by
      unfold stripFences
      simp [h1, h2]
    refine ⟨hs, fun hp => ?_⟩
    simp only [handleReply, hs, hp]
  · intro h1 h2
    have hs : stripFences s' = pyDropRight s' 3 := by
      unfold stripFences
      simp [h1, h2]
    refine ⟨hs, fun hp => ?_⟩
    simp only [handleReply, hs, hp]

/-- Closed witness for `asymmetricFence_stripped` at a reply with only an
opening fence and a reply with only a closing fence. -/
theorem asymmetricFence_stripped_witness :
    pyStartsWith "```jsonhello" jsonFenceOpen = true ∧
    pyEndsWith (pyDrop "```jsonhello" 7) fenceClose = false ∧
    stripFences "```jsonhello" = pyDrop "```jsonhello" 7 ∧
    handleReply (fun _ => none) "```jsonhello" = ReplyResult.decodeError (pyDrop "```jsonhello" 7) ∧
    stripFences "hello```" = pyDropRight "hello```" 3 := by
  have h := asymmetricFence_stripped (fun _ => none) "```jsonhello" "hello```"
  have h1 := h.1 (by decide) (by decide)
  have h2 := h.2 (by decide) (by decide)
  exact ⟨by decide, by decide, h1.1, h1.2 rfl, h2.1⟩

/-- C8: whenever the fence-stripped reply fails to parse as JSON, the run
takes the decode-error path: it reports the diagnostic together with the
raw offending text (the fence-stripped reply) and ends without ever
invoking the plan renderer, so no plan output is produced and the
workflow terminates cleanly. -/
theorem parseFailure_cleanStop (parse : String → Option Json) (s : String)
    (h : parse (stripFences s) = none) :
    handleReply parse s = ReplyResult.decodeError (stripFences s) ∧
    ∀ lines, handleReply parse s ≠ ReplyResult.plan lines := by
  have hmain : handleReply parse s = ReplyResult.decodeError (stripFences s) := by
    simp only [handleReply, h]
  exact ⟨hmain, fun lines hcontra => by rw [hmain] at hcontra; cases hcontra⟩

/-- Closed witness for `parseFailure_cleanStop` at a plain-prose reply and
the always-failing parse. -/
theorem parseFailure_cleanStop_witness :
    (fun _ : String => (none : Option Json)) (stripFences "not json") = none ∧
    handleReply (fun _ => none) "not json" = ReplyResult.decodeError (stripFences "not json") ∧
    ∀ lines, handleReply (fun _ => none) "not json" ≠ ReplyResult.plan lines := by
  have h := parseFailure_cleanStop (fun _ => none) "not json" rfl
  exact ⟨rfl, h.1, h.2⟩

/-- C9: when the credential is absent (the environment variable is unset)
or empty, the model client raises the configuration `ValueError` and the
run aborts with no network request having been issued (the request log is
empty), regardless of what the network would have answered. -/
theorem missingApiKey_abortsEarly (apiKey : Option String)
    (send : String → String) (parse : String → Option Json) (prompt : String)
    (h : apiKey = none ∨ apiKey = some "") :
    call_gemini_api apiKey send prompt =
      (.error "GEMINI_API_KEY not found in .env file", []) ∧
    runWorkflow apiKey send parse prompt =
      (.aborted "GEMINI_API_KEY not found in .env file", []) := by
  rcases h with rfl | rfl
  · exact ⟨rfl, rfl⟩
  · exact ⟨rfl, rfl⟩

/-- Closed witness for `missingApiKey_abortsEarly` at an unset variable. -/
theorem missingApiKey_abortsEarly_witness :
    ((none : Option String) = none ∨ (none : Option String) = some "") ∧
    call_gemini_api none (fun _ => "reply") "prompt" =
      (.error "GEMINI_API_KEY not found in .env file", []) ∧
    runWorkflow none (fun _ => "reply") (fun _ => none) "prompt" =
      (.aborted "GEMINI_API_KEY not found in .env file", []) := by
  have h := missingApiKey_abortsEarly none (fun _ => "reply") (fun _ => none) "prompt" (Or.inl rfl)
  exact ⟨Or.inl rfl, h.1, h.2⟩

/-- C10: a top-level entry whose key begins with `week` but whose value is
not a JSON object (for instance a top-level `weekly_gear_tip` string,
whose key also begins with `week`) renders as just the week header derived
from the key, with nothing else and no exception. -/
theorem weekKeyNonObject_headerOnly (k : String) (v : Json)
    (hk : pyStartsWith k "week" = true) (hv : v.isObj = false) :
    renderWeekEntry k v = some ["\n" ++ pyUpper (underscoreToSpace k) ++ ":"] := by
  unfold renderWeekEntry
  rw [hk]
  simp only [if_true]
  cases v with
  | obj fs => simp [Json.isObj] at hv
  | null => rfl
  | bool b => rfl
  | num n => rfl
  | str s => rfl
  | arr xs => rfl

/-- Closed witness for `weekKeyNonObject_headerOnly` at a top-level
`weekly_gear_tip` string entry. -/
theorem weekKeyNonObject_headerOnly_witness :
    pyStartsWith "weekly_gear_tip" "week" = true ∧
    (Json.str "Buy good shoes").isObj = false ∧
    renderWeekEntry "weekly_gear_tip" (Json.str "Buy good shoes") =
      some ["\nWEEKLY GEAR TIP:"] := by
  refine ⟨by decide, rfl, ?_⟩
  have h := weekKeyNonObject_headerOnly "weekly_gear_tip" (Json.str "Buy good shoes") (by decide) rfl
  rw [h]
  rfl

/-- En-dash character (the one used in the pace-zone table of the
specification, distinct from the ASCII hyphen used throughout the
source). -/
def enDashChar : Char := Char.ofNat 0x2013

/-- The four pace-zone strings of the zone-2 row of the table in the
specification, as the claim quotes them (description, pace offset,
heart-rate percentage, RPE), with en-dashes. -/
def specZone2Strings : List String := ["Easy, aerobic base", "+60–90s", "75–85%", "4–5/10"]

/-- The corresponding zone-2 wording actually written in the dead
pace-zone block of the source (hyphens, different description). -/
def deadZone2Strings : List String :=
  ["Easy, build aerobic base", "5K_pace + 60-90 seconds", "75-85% max HR", "4-5/10"]

/-- Neither a capital E nor an en-dash occurs anywhere in the prompt built
for a profile drawn from the enumerated CLI choices with both free-text
flags omitted: not in the fixed template pieces and not in any allowed
field value. -/
theorem prompt_char_absent (sex age fitness goal : String) (c : Nat)
    (hs : sex ∈ sexChoices) (ha : age ∈ ageChoices) (hf : fitness ∈ fitnessChoices)
    (hg : goal ∈ goalChoices) (hc : c ∈ commitmentChoices)
    (ch : Char) (hch : ch = 'E' ∨ ch = enDashChar) :
    ch ∉ (buildPrompt sex age fitness goal none none c).data := by
  intro hmem
  simp only [buildPrompt, String.data_append, List.mem_append, pyOptStr, or_assoc] at hmem
  have habs : ∀ piece : String,
      piece ∈ ([promptP1, promptP2, promptP3, promptP4, promptP5, promptP6,
        promptP7, promptP8, "None"] ++ sexChoices ++ ageChoices ++
        fitnessChoices ++ goalChoices ++ (commitmentChoices.map toString)) →
      ch ∉ piece.data := by
    rcases hch with rfl | rfl <;> decide
  rcases hmem with h | h | h | h | h | h | h | h | h | h | h | h | h | h | h
  · exact habs promptP1 (by decide) h
  · exact habs age (by simp [ha]) h
  · exact habs promptP2 (by decide) h
  · exact habs sex (by simp [hs]) h
  · exact habs promptP3 (by decide) h
  · exact habs fitness (by simp [hf]) h
  · exact habs promptP4 (by decide) h
  · exact habs goal (by simp [hg]) h
  · exact habs promptP5 (by decide) h
  · exact habs "None" (by decide) h
  · exact habs promptP6 (by decide) h
  · exact habs "None" (by decide) h
  · exact habs promptP7 (by decide) h
  · simp only [commitmentChoices, List.mem_cons, List.not_mem_nil, or_false] at hc
    rcases hc with rfl | rfl | rfl <;> rcases hch with rfl | rfl <;> revert h <;> decide
  · exact habs promptP8 (by decide) h

/-- C1 (code bug): for the concrete failing profile (philosophy `The
Gentle Start`, though the same holds for all four), the string actually
assigned to `prompt` contains none of the four catalog description texts:
the stray closing `"""` on line 85 ends the f-string right after the
user-data section, so `philosophy_text` never reaches the prompt (and the
leftover template below it is not even syntactically valid Python). -/
theorem prompt_lacks_philosophy_descriptions :
    ¬ (gentleStartText.data <:+:
        (buildPrompt "Male" "18-24" "Just Starting" "Stay Fit" none none 4).data) ∧
    ¬ (balancedMotivationalText.data <:+:
        (buildPrompt "Male" "18-24" "Just Starting" "Stay Fit" none none 4).data) ∧
    ¬ (trainSmarterText.data <:+:
        (buildPrompt "Male" "18-24" "Just Starting" "Stay Fit" none none 4).data) ∧
    ¬ (performancePushText.data <:+:
        (buildPrompt "Male" "18-24" "Just Starting" "Stay Fit" none none 4).data) := by
  refine ⟨by decide, by decide, by decide, by decide⟩

/-- C2 (counterexample): at a concrete valid profile the built prompt
contains none of the zone-2 pace-table strings the claim requires
byte-for-byte (neither the description nor the en-dash offset, heart-rate
or RPE strings), refuting the claim as stated. -/
theorem paceZoneTable_counterexample :
    ¬ ("Easy, aerobic base".data <:+:
        (buildPrompt "Male" "18-24" "Just Starting" "Stay Fit" none none 4).data) ∧
    ¬ ("+60–90s".data <:+:
        (buildPrompt "Male" "18-24" "Just Starting" "Stay Fit" none none 4).data) ∧
    ¬ ("75–85%".data <:+:
        (buildPrompt "Male" "18-24" "Just Starting" "Stay Fit" none none 4).data) ∧
    ¬ ("4–5/10".data <:+:
        (buildPrompt "Male" "18-24" "Just Starting" "Stay Fit" none none 4).data) := by
  refine ⟨by decide, by decide, by decide, by decide⟩

/-- C2 (amended): for every profile drawn from the enumerated CLI choices
with the free-text flags omitted, the built prompt contains none of the
zone-2 pace-table strings of the specification; the pace-zone definitions
exist only in the dead template text after the prompt assignment, where
their wording moreover differs from the table in the specification
(hyphens instead of en-dashes, description `Easy, build aerobic base`). -/
theorem paceZoneTable_amended (sex age fitness goal : String) (c : Nat)
    (hs : sex ∈ sexChoices) (ha : age ∈ ageChoices) (hf : fitness ∈ fitnessChoices)
    (hg : goal ∈ goalChoices) (hc : c ∈ commitmentChoices) :
    (∀ zs ∈ specZone2Strings,
      ¬ (zs.data <:+: (buildPrompt sex age fitness goal none none c).data)) ∧
    (∀ ds ∈ deadZone2Strings, ds.data <:+: deadPaceZoneJson.data) := by
  refine ⟨?_, by decide⟩
  intro zs hzs
  simp only [specZone2Strings, List.mem_cons, List.not_mem_nil, or_false] at hzs
  rcases hzs with rfl | rfl | rfl | rfl
  · exact not_infix_of_missing_char (c := 'E') (by decide)
      (prompt_char_absent sex age fitness goal c hs ha hf hg hc 'E' (Or.inl rfl))
  · exact not_infix_of_missing_char (c := enDashChar) (by decide)
      (prompt_char_absent sex age fitness goal c hs ha hf hg hc enDashChar (Or.inr rfl))
  · exact not_infix_of_missing_char (c := enDashChar) (by decide)
      (prompt_char_absent sex age fitness goal c hs ha hf hg hc enDashChar (Or.inr rfl))
  · exact not_infix_of_missing_char (c := enDashChar) (by decide)
      (prompt_char_absent sex age fitness goal c hs ha hf hg hc enDashChar (Or.inr rfl))

/-- Closed witness for `paceZoneTable_amended` at a concrete profile. -/
theorem paceZoneTable_amended_witness :
    ("Female" ∈ sexChoices ∧ "35-44" ∈ ageChoices ∧
      "Beginner Runner" ∈ fitnessChoices ∧ "Run Longer" ∈ goalChoices ∧
      3 ∈ commitmentChoices) ∧
    ¬ ("Easy, aerobic base".data <:+:
        (buildPrompt "Female" "35-44" "Beginner Runner" "Run Longer" none none 3).data) ∧
    "Easy, build aerobic base".data <:+: deadPaceZoneJson.data := by
  have h := paceZoneTable_amended "Female" "35-44" "Beginner Runner" "Run Longer" 3
    (by decide) (by decide) (by decide) (by decide) (by decide)
  exact ⟨⟨by decide, by decide, by decide, by decide, by decide⟩,
    h.1 "Easy, aerobic base" (by decide),
    h.2 "Easy, build aerobic base" (by decide)⟩

/-- Well-formedness of the `main_circuit` field of a strength day, as far
as exceptions are concerned: when present and a dict, its `exercises`
entry (defaulting to an empty list) must be a list of dicts. -/
def mainCircuitWellFormed (fs : List (String × Json)) : Bool :=
  match fs.lookup "main_circuit" with
  | some (.obj mc) =>
    match mc.lookup "exercises" with
    | some (.arr xs) => xs.all Json.isObj
    | some _ => false
    | none => true
  | _ => true

/-- Well-formedness of the `warm_up` field of a strength day: when present
and a dict, its `exercises` entry (defaulting to an empty list) must be a
list of dicts. -/
def strengthWarmupWellFormed (fs : List (String × Json)) : Bool :=
  match fs.lookup "warm_up" with
  | some (.obj wu) =>
    match wu.lookup "exercises" with
    | some (.arr xs) => xs.all Json.isObj
    | some _ => false
    | none => true
  | _ => true

/-- Well-formedness of the `main_workout` field of a running day: when
present and a dict with a `key_points` entry, that entry must be a
list. -/
def keyPointsWellFormed (fs : List (String × Json)) : Bool :=
  match fs.lookup "main_workout" with
  | some (.obj m) =>
    match m.lookup "key_points" with
    | some (.arr _) => true
    | some _ => false
    | none => true
  | _ => true

/-- The strength warm-up block never raises when the warm-up field is
well formed. -/
theorem strengthWarmupBlock_isSome (fs : List (String × Json))
    (h : strengthWarmupWellFormed fs = true) : (strengthWarmupBlock fs).isSome := by
  unfold strengthWarmupWellFormed at h
  unfold strengthWarmupBlock
  match hlk : fs.lookup "warm_up" with
  | none => simp [hlk] at h ⊢
  | some .null | some (.bool _) | some (.num _) | some (.str _) | some (.arr _) =>
    simp [hlk] at h ⊢
  | some (.obj wu) =>
    rw [hlk] at h
    dsimp only at h ⊢
    match hex : wu.lookup "exercises" with
    | none =>
      simp [pyGetD, hex, iterJson, mapOrFail]
    | some .null | some (.bool _) | some (.num _) | some (.str _) | some (.obj _) =>
      simp [hex] at h
    | some (.arr xs) =>
      rw [hex] at h
      dsimp only at h
      have hall : ∀ x ∈ xs, (fmtWarmupExercise x).isSome := by
        intro x hx
        have hobj := List.all_eq_true.mp h x hx
        cases x <;> simp_all [Json.isObj, fmtWarmupExercise]
      obtain ⟨ys, hys⟩ := Option.isSome_iff_exists.mp
        (mapOrFail_isSome (f := fmtWarmupExercise) (l := xs) hall)
      simp [pyGetD, hex, iterJson, hys]

/-- The strength main-circuit block never raises when the main-circuit
field is well formed. -/
theorem strengthCircuitBlock_isSome (fs : List (String × Json))
    (h : mainCircuitWellFormed fs = true) : (strengthCircuitBlock fs).isSome := by
  unfold mainCircuitWellFormed at h
  unfold strengthCircuitBlock
  match hlk : fs.lookup "main_circuit" with
  | none => simp [hlk] at h ⊢
  | some .null | some (.bool _) | some (.num _) | some (.str _) | some (.arr _) =>
    simp [hlk] at h ⊢
  | some (.obj mc) =>
    rw [hlk] at h
    dsimp only at h ⊢
    match hex : mc.lookup "exercises" with
    | none =>
      simp [pyGetD, hex, iterJson, mapOrFail]
    | some .null | some (.bool _) | some (.num _) | some (.str _) | some (.obj _) =>
      simp [hex] at h
    | some (.arr xs) =>
      rw [hex] at h
      dsimp only at h
      have hall : ∀ x ∈ xs, (fmtCircuitExercise x).isSome := by
        intro x hx
        have hobj := List.all_eq_true.mp h x hx
        cases x <;> simp_all [Json.isObj, fmtCircuitExercise]
      obtain ⟨ys, hys⟩ := Option.isSome_iff_exists.mp
        (mapOrFail_isSome (f := fmtCircuitExercise) (l := xs) hall)
      simp [pyGetD, hex, iterJson, hys]

/-- The running main-workout block never raises when the main-workout
field is well formed. -/
theorem runningMainBlock_isSome (fs : List (String × Json))
    (h : keyPointsWellFormed fs = true) : (runningMainBlock fs).isSome := by
  unfold keyPointsWellFormed at h
  unfold runningMainBlock
  match hlk : fs.lookup "main_workout" with
  | none => simp [hlk] at h ⊢
  | some .null | some (.bool _) | some (.num _) | some (.str _) | some (.arr _) =>
    simp [hlk] at h ⊢
  | some (.obj m) =>
    rw [hlk] at h
    dsimp only at h ⊢
    match hex : m.lookup "key_points" with
    | none => simp [hex]
    | some .null | some (.bool _) | some (.num _) | some (.str _) | some (.obj _) =>
      simp [hex] at h
    | some (.arr pts) => simp [hex, iterJson]

/-- The strength formatter never raises on a well-formed strength day. -/
theorem format_strength_workout_isSome (fs : List (String × Json))
    (hw : strengthWarmupWellFormed fs = true)
    (hm : mainCircuitWellFormed fs = true) :
    (format_strength_workout fs).isSome := by
  obtain ⟨w, hwv⟩ := Option.isSome_iff_exists.mp (strengthWarmupBlock_isSome fs hw)
  obtain ⟨m, hmv⟩ := Option.isSome_iff_exists.mp (strengthCircuitBlock_isSome fs hm)
  simp [format_strength_workout, hwv, hmv]

/-- The running formatter never raises on a well-formed running day. -/
theorem format_running_workout_isSome (fs : List (String × Json))
    (h : keyPointsWellFormed fs = true) :
    (format_running_workout fs).isSome := by
  obtain ⟨m, hmv⟩ := Option.isSome_iff_exists.mp (runningMainBlock_isSome fs h)
  simp [format_running_workout, hmv]

/-- C3 (counterexample): on the concrete strength day with no `warm_up`
key, the strength formatter prints exactly the total-duration line — in
particular it does not print `N/A` as a warm-up duration, since no line
mentioning a warm-up is produced at all. -/
theorem strengthNoWarmup_counterexample :
    format_strength_workout [("workout_type", Json.str "Strength")] =
      some ["    Total Duration: N/A"] ∧
    ¬ ("Warm-up".data <:+: "    Total Duration: N/A".data) := by
  exact ⟨rfl, by decide⟩

/-- C3 (amended): for every strength day dict with no `warm_up` key, the
warm-up block contributes no lines at all (neither a duration line, with
or without `N/A`, nor exercise lines), and — provided the `main_circuit`
field, when present, is well formed — the formatter raises no exception:
it returns the total-duration line followed by just the main-circuit
block. -/
theorem strengthNoWarmup_amended (fs : List (String × Json))
    (h : fs.lookup "warm_up" = none)
    (hmc : mainCircuitWellFormed fs = true) :
    strengthWarmupBlock fs = some [] ∧
    ∃ circuitLines, strengthCircuitBlock fs = some circuitLines ∧
      format_strength_workout fs =
        some (("    Total Duration: " ++ pyStr (pyGetD fs "total_duration" (Json.str "N/A")))
          :: circuitLines) := by
  have hwb : strengthWarmupBlock fs = some [] := by
    unfold strengthWarmupBlock
    rw [h]
  obtain ⟨m, hmv⟩ := Option.isSome_iff_exists.mp (strengthCircuitBlock_isSome fs hmc)
  refine ⟨hwb, m, hmv, ?_⟩
  simp [format_strength_workout, hwb, hmv]

/-- Closed witness for `strengthNoWarmup_amended` at a strength day with a
main circuit but no warm-up. -/
theorem strengthNoWarmup_amended_witness :
    ([("workout_type", Json.str "Strength"),
      ("total_duration", Json.str "30 mins"),
      ("main_circuit", Json.obj [("rounds", Json.num 2),
        ("exercises", Json.arr [Json.obj [("name", Json.str "squats"),
          ("sets", Json.str "3"), ("reps", Json.str "10")]])])].lookup "warm_up" = none) ∧
    mainCircuitWellFormed [("workout_type", Json.str "Strength"),
      ("total_duration", Json.str "30 mins"),
      ("main_circuit", Json.obj [("rounds", Json.num 2),
        ("exercises", Json.arr [Json.obj [("name", Json.str "squats"),
          ("sets", Json.str "3"), ("reps", Json.str "10")]])])] = true ∧
    strengthWarmupBlock [("workout_type", Json.str "Strength"),
      ("total_duration", Json.str "30 mins"),
      ("main_circuit", Json.obj [("rounds", Json.num 2),
        ("exercises", Json.arr [Json.obj [("name", Json.str "squats"),
          ("sets", Json.str "3"), ("reps", Json.str "10")]])])] = some [] := by
  refine ⟨rfl, rfl, ?_⟩
  exact (strengthNoWarmup_amended [("workout_type", Json.str "Strength"),
      ("total_duration", Json.str "30 mins"),
      ("main_circuit", Json.obj [("rounds", Json.num 2),
        ("exercises", Json.arr [Json.obj [("name", Json.str "squats"),
          ("sets", Json.str "3"), ("reps", Json.str "10")]])])] rfl rfl).1

/-- C5: the per-day dispatch of the renderer sends a day whose
`workout_type` is the string `Strength` to the strength formatter, a day
whose `workout_type` is exactly the string `Rest` to the single
optional-activity line (with `N/A` default), and every other day —
including one with no `workout_type` key at all — to the running
formatter; and on the concrete `Easy Run` day with only an intensity, the
renderer prints `Low` for intensity, `N/A` for RPE target and pace
guidance, and nothing for the absent warm-up, main-workout and cool-down
sections. -/
theorem dayDispatch_spec (fs : List (String × Json)) :
    ((pyGetD fs "workout_type" .null).isStrEq "Strength" = true →
      renderDayBody fs = format_strength_workout fs) ∧
    ((pyGetD fs "workout_type" .null).isStrEq "Rest" = true →
      renderDayBody fs =
        some ["    Optional Activity: " ++ pyStr (pyGetD fs "optional_activity" (Json.str "N/A"))]) ∧
    ((pyGetD fs "workout_type" .null).isStrEq "Strength" = false →
      (pyGetD fs "workout_type" .null).isStrEq "Rest" = false →
      renderDayBody fs = format_running_workout fs) ∧
    (fs.lookup "workout_type" = none →
      renderDayBody fs = format_running_workout fs) ∧
    (renderDay "monday" (Json.obj [("workout_type", Json.str "Easy Run"),
        ("intensity", Json.str "Low")]) =
      some ["\n  MONDAY: Easy Run - N/A", "    Intensity: Low",
        "    RPE Target: N/A", "    Pace Guidance: N/A"]) := by
  refine ⟨?_, ?_, ?_, ?_, by decide⟩
  · intro h
    unfold renderDayBody
    rw [h]
    simp
  · intro h
    have hns : (pyGetD fs "workout_type" .null).isStrEq "Strength" = false := by
      revert h
      unfold Json.isStrEq
      cases pyGetD fs "workout_type" .null <;> simp
      intro h
      rw [h]
      decide
    unfold renderDayBody
    rw [hns, h]
    simp
  · intro h1 h2
    unfold renderDayBody
    rw [h1, h2]
    simp
  · intro h
    have hn : pyGetD fs "workout_type" .null = .null := by
      unfold pyGetD
      rw [h]
    unfold renderDayBody
    rw [hn]
    simp [Json.isStrEq]

/-- Closed witness for `dayDispatch_spec`, exercising the Strength, Rest
and missing-key branches at concrete days. -/
theorem dayDispatch_spec_witness :
    ((pyGetD [("workout_type", Json.str "Strength")] "workout_type" .null).isStrEq "Strength" = true ∧
      renderDayBody [("workout_type", Json.str "Strength")] =
        format_strength_workout [("workout_type", Json.str "Strength")]) ∧
    ((pyGetD [("workout_type", Json.str "Rest"), ("optional_activity", Json.str "Yoga")]
        "workout_type" .null).isStrEq "Rest" = true ∧
      renderDayBody [("workout_type", Json.str "Rest"), ("optional_activity", Json.str "Yoga")] =
        some ["    Optional Activity: Yoga"]) ∧
    (([] : List (String × Json)).lookup "workout_type" = none ∧
      renderDayBody [] = format_running_workout []) := by
  refine ⟨⟨by decide, (dayDispatch_spec _).1 (by decide)⟩,
    ⟨by decide, ?_⟩,
    ⟨rfl, (dayDispatch_spec _).2.2.2.1 rfl⟩⟩
  have h := (dayDispatch_spec [("workout_type", Json.str "Rest"),
    ("optional_activity", Json.str "Yoga")]).2.1 (by decide)
  rw [h]
  rfl

/-- Exception-safety of a single day value: the day must be a dict, and
the branch its `workout_type` dispatches to must have well-formed
list-bearing fields (`exercises` lists of dicts on a strength day,
`key_points` a list on a running day).  A rest day has no hazards. -/
def daySafe (dayData : Json) : Bool :=
  match dayData with
  | .obj fs =>
    if (pyGetD fs "workout_type" .null).isStrEq "Strength" then
      strengthWarmupWellFormed fs && mainCircuitWellFormed fs
    else if !(pyGetD fs "workout_type" .null).isStrEq "Rest" then
      keyPointsWellFormed fs
    else true
  | _ => false

/-- Exception-safety of a week value: a non-dict week value is harmless
(only the header is printed); a dict week value needs every day entry
other than the gear tip to be safe. -/
def weekSafe (weekData : Json) : Bool :=
  match weekData with
  | .obj days => days.all fun kv => kv.1 == "weekly_gear_tip" || daySafe kv.2
  | _ => true

/-- Exception-safety of a whole parsed plan: it must be a dict (the
renderer calls `.items()` on it), and every entry whose key starts with
`week` must have a safe value. -/
def planSafe (trainingPlan : Json) : Bool :=
  match trainingPlan with
  | .obj entries => entries.all fun kv => !(pyStartsWith kv.1 "week") || weekSafe kv.2
  | _ => false

/-- The dispatched day body never raises on a safe day dict. -/
theorem renderDayBody_isSome (fs : List (String × Json))
    (h : daySafe (Json.obj fs) = true) : (renderDayBody fs).isSome := by
  unfold daySafe at h
  dsimp only at h
  unfold renderDayBody
  by_cases hst : (pyGetD fs "workout_type" .null).isStrEq "Strength" = true
  · rw [hst] at h ⊢
    simp only [if_true] at h ⊢
    simp only [Bool.and_eq_true] at h
    exact format_strength_workout_isSome fs h.1 h.2
  · have hst' : (pyGetD fs "workout_type" .null).isStrEq "Strength" = false :=
      Bool.not_eq_true _ ▸ Bool.of_not_eq_true hst
    rw [hst'] at h ⊢
    simp only [Bool.false_eq_true, if_false] at h ⊢
    by_cases hrs : (pyGetD fs "workout_type" .null).isStrEq "Rest" = true
    · rw [hrs] at h ⊢
      simp at h ⊢
    · have hrs' : (pyGetD fs "workout_type" .null).isStrEq "Rest" = false :=
        Bool.not_eq_true _ ▸ Bool.of_not_eq_true hrs
      rw [hrs'] at h ⊢
      simp only [Bool.not_false, if_true] at h ⊢
      exact format_running_workout_isSome fs h

/-- Rendering one day never raises when the day is the gear tip or is
safe. -/
theorem renderDay_isSome (day : String) (dayData : Json)
    (h : (day == "weekly_gear_tip" || daySafe dayData) = true) :
    (renderDay day dayData).isSome := by
  unfold renderDay
  by_cases hd : (day == "weekly_gear_tip") = true
  · rw [hd]
    simp
  · have hd' : (day == "weekly_gear_tip") = false :=
      Bool.not_eq_true _ ▸ Bool.of_not_eq_true hd
    rw [hd'] at h
    simp only [Bool.false_or] at h
    rw [hd']
    simp only [Bool.false_eq_true, if_false]
    match hobj : dayData with
    | .obj fs =>
      dsimp only [asObj]
      obtain ⟨body, hbody⟩ := Option.isSome_iff_exists.mp (renderDayBody_isSome fs h)
      simp [hbody]
    | .null | .bool _ | .num _ | .str _ | .arr _ => simp [daySafe] at h

/-- Rendering one top-level entry never raises when either its key does
not start with `week` or its value is safe. -/
theorem renderWeekEntry_isSome (week : String) (weekData : Json)
    (h : (!(pyStartsWith week "week") || weekSafe weekData) = true) :
    (renderWeekEntry week weekData).isSome := by
  unfold renderWeekEntry
  by_cases hw : pyStartsWith week "week" = true
  · rw [hw] at h ⊢
    simp only [Bool.not_true, Bool.false_or] at h
    simp only [if_true]
    match hv : weekData with
    | .obj days =>
      unfold weekSafe at h
      have hall : ∀ kv ∈ days, (renderDay kv.1 kv.2).isSome := by
        intro kv hkv
        exact renderDay_isSome kv.1 kv.2 (List.all_eq_true.mp h kv hkv)
      obtain ⟨blocks, hblocks⟩ := Option.isSome_iff_exists.mp
        (mapOrFail_isSome (f := fun kv => renderDay kv.1 kv.2) (l := days) hall)
      simp [hblocks]
    | .null | .bool _ | .num _ | .str _ | .arr _ => simp
  · have hw' : pyStartsWith week "week" = false :=
      Bool.not_eq_true _ ▸ Bool.of_not_eq_true hw
    rw [hw']
    simp

/-- C4 (amended): rendering a parsed plan completes without any exception
— every missing field defaulting to `N/A` and every absent or non-dict
sub-object being skipped — provided the plan is structurally safe: each
day entry under a dict-valued week is itself a dict, strength `exercises`
fields (when present) are lists of dicts, and running `key_points` fields
(when present) are lists.  (The unamended claim fails: see the
counterexample with a string-valued day entry.) -/
theorem rendererTotal_amended (trainingPlan : Json)
    (h : planSafe trainingPlan = true) :
    ∃ lines, renderPlan trainingPlan = some lines := by
  unfold planSafe at h
  unfold renderPlan
  match hp : trainingPlan with
  | .null | .bool _ | .num _ | .str _ | .arr _ => simp at h
  | .obj entries =>
    have hall : ∀ kv ∈ entries, (renderWeekEntry kv.1 kv.2).isSome := by
      intro kv hkv
      exact renderWeekEntry_isSome kv.1 kv.2 (List.all_eq_true.mp h kv hkv)
    obtain ⟨blocks, hblocks⟩ := Option.isSome_iff_exists.mp
      (mapOrFail_isSome (f := fun kv => renderWeekEntry kv.1 kv.2) (l := entries) hall)
    exact ⟨blocks.flatten, by simp [hblocks]⟩

/-- C4 (counterexample): a plan whose day entry is a plain string — a
shape the claim says must be tolerated — crashes the renderer: Python
calls `.get` on the string day value and raises `AttributeError`, so
rendering does not complete. -/
theorem rendererTotal_counterexample :
    renderPlan (Json.obj [("week_1", Json.obj [("monday", Json.str "jog")])]) = none := by
  rfl

/-- Closed witness for `rendererTotal_amended` at a small safe plan
containing a strength day, a rest day, a running day, a gear tip and a
non-dict week value. -/
theorem rendererTotal_amended_witness :
    planSafe (Json.obj [("week_1", Json.obj
        [("monday", Json.obj [("workout_type", Json.str "Strength")]),
         ("tuesday", Json.obj [("workout_type", Json.str "Rest")]),
         ("wednesday", Json.obj [("workout_type", Json.str "Easy Run"),
            ("intensity", Json.str "Low")]),
         ("weekly_gear_tip", Json.str "Hydrate")]),
      ("week_2", Json.str "rest up")]) = true ∧
    ∃ lines, renderPlan (Json.obj [("week_1", Json.obj
        [("monday", Json.obj [("workout_type", Json.str "Strength")]),
         ("tuesday", Json.obj [("workout_type", Json.str "Rest")]),
         ("wednesday", Json.obj [("workout_type", Json.str "Easy Run"),
            ("intensity", Json.str "Low")]),
         ("weekly_gear_tip", Json.str "Hydrate")]),
      ("week_2", Json.str "rest up")]) = some lines := by
  refine ⟨by decide, ?_⟩
  exact rendererTotal_amended _ (by decide)
